import Mathlib

/-!
Shallow embedding of `app.py` — a Streamlit chat front end over a
PostgreSQL database and an LLM provider — together with proofs about its
query-patching, error-handling and session-state behaviour.

Python strings are modelled as `String`/`List Char`; a Python call that may
raise is modelled as returning `Except String α`, the `error` case carrying
`str(e)`.
-/

namespace Chatbot

/-- Replace every occurrence of `pat` by `repl` in a list of characters,
scanning left to right and not rescanning the replacement text, exactly as
Python's `str.replace` does for a non-empty pattern.  (The program only ever
calls it with non-empty literal patterns; on an empty pattern this definition
is the identity.)  The `fuel` argument only makes the recursion structural;
any `fuel ≥ s.length` gives the same result (`replaceAux_fuel`), and
`replaceList` instantiates it with `s.length`. -/
def replaceAux (pat repl : List Char) : Nat → List Char → List Char
  | _, [] => []
  | 0, s => s
  | fuel + 1, c :: cs =>
    if pat ≠ [] ∧ List.take pat.length (c :: cs) = pat then
      repl ++ replaceAux pat repl fuel (List.drop pat.length (c :: cs))
    else
      c :: replaceAux pat repl fuel cs

/-- Replace every occurrence of `pat` by `repl`, scanning left to right. -/
def replaceList (pat repl : List Char) (s : List Char) : List Char :=
  replaceAux pat repl s.length s

/-- Python `s.replace(pat, repl)` on `String`s. -/
def strReplace (s pat repl : String) : String :=
  (replaceList pat.toList repl.toList s.toList).asString

/-- Decidable substring test: `containsSub pat s` is `true` iff `pat` occurs
as a contiguous run inside `s`. -/
def containsSub (pat : List Char) : List Char → Bool
  | [] => pat.isEmpty
  | c :: cs =>
    if List.take pat.length (c :: cs) = pat then true else containsSub pat cs

/-- Propositional substring occurrence. -/
def Occurs (pat s : List Char) : Prop := ∃ l r, s = l ++ pat ++ r

end Chatbot

namespace Chatbot

/-- A `langchain_core.messages` chat message: tagged Human or AI, holding a
single text payload. -/
inductive ChatMessage where
  | AIMessage (content : String)
  | HumanMessage (content : String)
deriving DecidableEq

/-- The text payload of a message. -/
def ChatMessage.content : ChatMessage → String
  | .AIMessage c => c
  | .HumanMessage c => c

/-- The live database handle (`SQLDatabase`): `run` executes a SQL string and
either returns its textual result or raises (`Except.error` carries
`str(e)`); `get_table_info` is the schema description used by the prompts. -/
structure Database where
  run : String → Except String String
  get_table_info : String

/-- The two literal text substitutions applied inside
`safe_query_execution` (src/app.py:90-93), in source order:
`query.replace("DATE_SUB(CURRENT_DATE", "CURRENT_DATE - INTERVAL")
      .replace("joiningdate", "joiningdate::timestamp")`. -/
def patchQuery (query : String) : String :=
  strReplace (strReplace query "DATE_SUB(CURRENT_DATE" "CURRENT_DATE - INTERVAL")
    "joiningdate" "joiningdate::timestamp"

/-- `safe_query_execution(db, query)` (src/app.py:88-95): run the patched
query; any exception `e` is caught and turned into
`f"An error occurred while running the query: {str(e)}"`. -/
def safe_query_execution (db : Database) (query : String) : String :=
  match db.run (patchQuery query) with
  | .ok r => r
  | .error e => "An error occurred while running the query: " ++ e

/-- Lower-case hexadecimal digit, as used by Python string escapes. -/
def hexDigit (n : Nat) : Char :=
  if n < 10 then Char.ofNat (48 + n) else Char.ofNat (87 + n)

/-- Python `repr` of one character of a string literal delimited by `quote`:
backslashes, the delimiter and newline/carriage-return/tab get their short
escapes, and every other non-printable code point below 256 — the ASCII
controls, DEL, the C1 controls, the no-break space U+00A0 and the soft hyphen
U+00AD — is escaped as `\xNN`, exactly as CPython renders them.  Code points
at and above 256 are kept as they are: CPython `\u`-escapes the non-printable
ones among them according to its Unicode tables, which this model does not
reproduce; every payload any statement below quantifies over is printable
ASCII, where the model is exact. -/
def pyReprChar (quote c : Char) : List Char :=
  if c = '\\' then ['\\', '\\']
  else if c = quote then ['\\', quote]
  else if c = '\n' then ['\\', 'n']
  else if c = '\r' then ['\\', 'r']
  else if c = '\t' then ['\\', 't']
  else if c.toNat < 32 ∨ (127 ≤ c.toNat ∧ c.toNat ≤ 160) ∨ c.toNat = 173 then
    ['\\', 'x', hexDigit (c.toNat / 16 % 16), hexDigit (c.toNat % 16)]
  else [c]

/-- Concatenation of a list of character runs. -/
def flatConcat : List (List Char) → List Char
  | [] => []
  | l :: ls => l ++ flatConcat ls

/-- Python `repr` of a string: delimited by single quotes unless the text
contains a single quote and no double quote, with each character escaped by
`pyReprChar`. -/
def pyRepr (s : String) : String :=
  let q : Char :=
    if '\x27' ∈ s.toList ∧ '"' ∉ s.toList then '"' else '\x27'
  (q :: (flatConcat (s.toList.map (pyReprChar q)) ++ [q])).asString

/-- Python `repr` of a langchain message object (its pydantic model `repr`):
class name, then the `content` field rendered with `repr`, then the default
`additional_kwargs`/`response_metadata` fields. -/
def messageRepr : ChatMessage → String
  | .HumanMessage c =>
      "HumanMessage(content=" ++ pyRepr c ++
        ", additional_kwargs=\x7b\x7d, response_metadata=\x7b\x7d)"
  | .AIMessage c =>
      "AIMessage(content=" ++ pyRepr c ++
        ", additional_kwargs=\x7b\x7d, response_metadata=\x7b\x7d)"

/-- Python `", ".join` over message `repr`s, as inside `str` of a list. -/
def reprJoin : List ChatMessage → String
  | [] => ""
  | m :: rest => messageRepr m ++ if rest.isEmpty then "" else ", " ++ reprJoin rest

/-- Python `str` of the `chat_history` list, which is how `str.format` renders
the `{chat_history}` template variable when the prompt is composed. -/
def renderHistory (hist : List ChatMessage) : String :=
  "[" ++ reprJoin hist ++ "]"

/-- The SQL-generation template of `get_sql_chain` (src/app.py:20-34) filled
with its three variables, exactly as `ChatPromptTemplate`'s f-string
formatting produces the prompt text sent to the LLM. -/
def sql_prompt (schema chat_history question : String) : String :=
  "\n    You are a god-level SQL expert with extensive knowledge of PostgreSQL. You are a data analyst at a company. \n    You are interacting with a user who is asking you questions about the company's database. Based on the table schema below, \n    write a PostgreSQL SQL query that would answer the user's question. \n\n    <SCHEMA>" ++
    schema ++
  "</SCHEMA>\n\n    Conversation History: " ++
    chat_history ++
  "\n\n    Write only the PostgreSQL SQL query and nothing else. Do not wrap the SQL query in any other text, not even backticks.\n\n    Your turn:\n    Question: " ++
    question ++
  "\n    SQL Query:\n    "

/-- The answer-composition template of `get_response` (src/app.py:53-67)
filled with its five variables. -/
def answer_prompt (schema chat_history query question response : String) : String :=
  "\n    You are a data analyst at a company. You are interacting with a user who is asking you questions about the company's database.\n    Based on the table schema below, question, SQL query, and SQL response, write a natural language response. \n    You should not give the query as the output and show the number rather than text.\n\n    If the data does not exist or the question cannot be answered, respond with: \n    \"I don't have the necessary data to answer this query.\"\n\n    <SCHEMA>" ++
    schema ++
  "</SCHEMA>\n\n    Conversation History: " ++
    chat_history ++
  "\n    SQL Query: <SQL>" ++
    query ++
  "</SQL>\n    User question: " ++
    question ++
  "\n    SQL Response: " ++
    response ++
  "\n    "

/-- The function computed by the runnable returned from `get_sql_chain(db)`
(src/app.py:19-47) on input `{question, chat_history}`: assign the schema from
`db.get_table_info()`, fill the template, call the LLM (`llm`; the network
call may fail, which nothing in the chain catches), and parse the reply as a
string (`StrOutputParser` is the identity on the reply text). -/
def get_sql_chain (db : Database) (llm : String → Except String String)
    (question : String) (chat_history : List ChatMessage) : Except String String :=
  llm (sql_prompt db.get_table_info (renderHistory chat_history) question)

/-- `get_response(user_query, db, chat_history)` (src/app.py:50-85): run the
SQL chain (first LLM call, `llmGen`), execute the generated text through
`safe_query_execution`, fill the answer template and make the second LLM call
(`llmAns`).  A provider failure is an `Except.error` that no code in this
function catches. -/
def get_response (llmGen llmAns : String → Except String String)
    (user_query : String) (db : Database) (chat_history : List ChatMessage) :
    Except String String :=
  match get_sql_chain db llmGen user_query chat_history with
  | .error e => .error e
  | .ok query =>
      llmAns (answer_prompt db.get_table_info (renderHistory chat_history)
        query user_query (safe_query_execution db query))

/-- Streamlit session state: the `chat_history` list and the optional `db`
entry (absent until a successful connect). -/
structure SessionState where
  chat_history : List ChatMessage
  db : Option Database

/-- Initial session state (src/app.py:98-101): the greeting AI message, and no
`db` entry. -/
def initial_state : SessionState :=
  { chat_history :=
      [ChatMessage.AIMessage "Hello! I'm a SQL assistant. Ask me anything about your database."],
    db := none }

/-- Python `str.strip()` whitespace: ASCII whitespace including the vertical
tab, form feed and the separator control characters, plus the Unicode space
code points. -/
def isPySpace (c : Char) : Bool :=
  c = ' ' || c = '\t' || c = '\n' || c = '\x0b' || c = '\x0c' || c = '\r' ||
  (28 ≤ c.toNat && c.toNat ≤ 31) || c.toNat = 133 || c.toNat = 160 ||
  c.toNat = 5760 || (8192 ≤ c.toNat && c.toNat ≤ 8202) || c.toNat = 8232 ||
  c.toNat = 8233 || c.toNat = 8239 || c.toNat = 8287 || c.toNat = 12288

/-- Python `s.strip()`: remove leading and trailing whitespace. -/
def pyStrip (s : String) : String :=
  (((s.toList.dropWhile isPySpace).reverse.dropWhile isPySpace).reverse).asString

/-- The Connect button handler (src/app.py:120-133).  `attempt` is the outcome
of `init_database(...)` — `SQLDatabase.from_uri` may raise, modelled as
`Except.error` carrying `str(e)`.  Returns the resulting session state and the
message shown (the `st.success` text, or the `st.error` text on failure, in
which case `st.session_state.db` is not assigned). -/
def connect_step (state : SessionState) (attempt : Except String Database) :
    SessionState × String :=
  match attempt with
  | .ok db => ({ state with db := some db }, "Connected to database!")
  | .error e => (state, "Failed to connect to the database: " ++ e)

/-- The chat-input handler (src/app.py:145-158).  `user_query` is the value of
`st.chat_input` (`none` when no message was submitted).  When it is present
and non-empty after `strip()`, the human turn is appended to the history;
then, with a connection present, `get_response` runs — its result is appended
as an AI turn, while an unhandled LLM failure aborts the script run after the
human turn was already appended (returned as `some` error text) — and without
a connection an inline error is shown and no AI turn is appended. -/
def user_query_step (llmGen llmAns : String → Except String String)
    (state : SessionState) (user_query : Option String) :
    SessionState × Option String :=
  match user_query with
  | none => (state, none)
  | some q =>
    if pyStrip q = "" then (state, none)
    else
      match state.db with
      | some db =>
        match get_response llmGen llmAns q db
            (state.chat_history ++ [ChatMessage.HumanMessage q]) with
        | .error e =>
            ({ state with
                chat_history := state.chat_history ++ [ChatMessage.HumanMessage q] },
              some e)
        | .ok response =>
            ({ state with
                chat_history := state.chat_history ++ [ChatMessage.HumanMessage q]
                  ++ [ChatMessage.AIMessage response] },
              none)
      | none =>
          ({ state with
              chat_history := state.chat_history ++ [ChatMessage.HumanMessage q] },
            none)

/-- A database handle whose `run` always raises, used for concrete instances. -/
def failingDB : Database :=
  { run := fun _ => Except.error "connection refused", get_table_info := "employees" }

/-- A database handle whose `run` always succeeds with a fixed row text. -/
def okDB : Database :=
  { run := fun _ => Except.ok "[(42,)]", get_table_info := "employees" }

/-- A database handle that raises exactly on the unpatched `DATE_SUB` text, so
it can tell which query text it was invoked with. -/
def originalSensitiveDB : Database :=
  { run := fun s =>
      if s = "DATE_SUB(CURRENT_DATE, INTERVAL 7 DAY)" then Except.error "bad date arithmetic"
      else Except.ok "[(42,)]",
    get_table_info := "employees" }

/-- An LLM stub returning a fixed reply. -/
def okLLM (reply : String) : String → Except String String := fun _ => Except.ok reply

/-- An LLM stub whose network call fails with a fixed provider error. -/
def failLLM (msg : String) : String → Except String String := fun _ => Except.error msg

/-- A printable ASCII character other than the backslash and the single
quote: exactly the characters Python string `repr` renders as themselves
inside a single-quoted literal. -/
def plainChar (c : Char) : Bool :=
  32 ≤ c.toNat && c.toNat ≤ 126 && c != '\\' && c != '\x27'

end Chatbot

namespace Chatbot

/-! ### Generic facts about the string-replacement machinery -/

/-- `replaceAux` gives the same answer for every sufficient amount of fuel. -/
theorem replaceAux_fuel (pat repl : List Char) :
    ∀ (f g : Nat) (s : List Char), s.length ≤ f → s.length ≤ g →
      replaceAux pat repl f s = replaceAux pat repl g s := by
  intro f
  induction f with
  | zero =>
    intro g s hf _
    have hs : s = [] := List.length_eq_zero.mp (Nat.le_zero.mp hf)
    subst hs
    cases g <;> rfl
  | succ f ih =>
    intro g s hf hg
    cases s with
    | nil => cases g <;> rfl
    | cons c cs =>
      cases g with
      | zero => simp at hg
      | succ g =>
        simp only [replaceAux]
        by_cases h : pat ≠ [] ∧ List.take pat.length (c :: cs) = pat
        · rw [if_pos h, if_pos h]
          have hp : 1 ≤ pat.length := by
            cases hp : pat with
            | nil => exact absurd hp h.1
            | cons a as => simp
          have hlen : (List.drop pat.length (c :: cs)).length ≤ f ∧
              (List.drop pat.length (c :: cs)).length ≤ g := by
            simp only [List.length_drop, List.length_cons]
            simp only [List.length_cons] at hf hg
            omega
          rw [ih g _ hlen.1 hlen.2]
        · rw [if_neg h, if_neg h]
          simp only [List.length_cons] at hf hg
          rw [ih g cs (by omega) (by omega)]

/-- Unfolding equation of `replaceList` on a cons cell. -/
theorem replaceList_cons (pat repl : List Char) (c : Char) (cs : List Char) :
    replaceList pat repl (c :: cs) =
      if pat ≠ [] ∧ List.take pat.length (c :: cs) = pat then
        repl ++ replaceList pat repl (List.drop pat.length (c :: cs))
      else
        c :: replaceList pat repl cs := by
  show replaceAux pat repl (cs.length + 1) (c :: cs) = _
  simp only [replaceAux, replaceList]
  by_cases h : pat ≠ [] ∧ List.take pat.length (c :: cs) = pat
  · rw [if_pos h, if_pos h]
    have hp : 1 ≤ pat.length := by
      cases hp : pat with
      | nil => exact absurd hp h.1
      | cons a as => simp
    rw [replaceAux_fuel pat repl cs.length (List.drop pat.length (c :: cs)).length _
      (by simp only [List.length_drop, List.length_cons]; omega) (le_refl _)]
  · rw [if_neg h, if_neg h]

/-- A non-empty pattern found at the head of the text is replaced. -/
theorem replaceList_head (pat repl s : List Char) (hs : s ≠ [])
    (hp : pat ≠ []) (htake : List.take pat.length s = pat) :
    replaceList pat repl s = repl ++ replaceList pat repl (List.drop pat.length s) := by
  cases s with
  | nil => exact absurd rfl hs
  | cons c cs => rw [replaceList_cons, if_pos ⟨hp, htake⟩]

/-- On a cons cell, a failed substring search means the pattern is not at the
head and does not occur in the tail. -/
theorem containsSub_cons_false (pat : List Char) (c : Char) (cs : List Char)
    (h : containsSub pat (c :: cs) = false) :
    List.take pat.length (c :: cs) ≠ pat ∧ containsSub pat cs = false := by
  by_cases ht : List.take pat.length (c :: cs) = pat
  · rw [containsSub, if_pos ht] at h
    exact absurd h (by simp)
  · rw [containsSub, if_neg ht] at h
    exact ⟨ht, h⟩

/-- Replacing a pattern that does not occur is the identity. -/
theorem replaceList_of_containsSub_false (pat repl : List Char) :
    ∀ s : List Char, containsSub pat s = false → replaceList pat repl s = s := by
  intro s
  induction s with
  | nil => intro _; rfl
  | cons c cs ih =>
    intro h
    obtain ⟨ht, hcs⟩ := containsSub_cons_false pat c cs h
    rw [replaceList_cons, if_neg (fun hc => ht hc.2), ih hcs]

/-- Replacement with a pattern no longer than its replacement does not shrink
the text. -/
theorem le_length_replaceList (pat repl : List Char) (hlen : pat.length ≤ repl.length) :
    ∀ (n : Nat) (s : List Char), s.length ≤ n →
      s.length ≤ (replaceList pat repl s).length := by
  intro n
  induction n with
  | zero =>
    intro s hs
    have h0 : s = [] := List.length_eq_zero.mp (Nat.le_zero.mp hs)
    subst h0
    exact Nat.le_refl _
  | succ n ih =>
    intro s hs
    cases s with
    | nil => exact Nat.zero_le _
    | cons c cs =>
      rw [replaceList_cons]
      by_cases h : pat ≠ [] ∧ List.take pat.length (c :: cs) = pat
      · rw [if_pos h]
        have hp : 1 ≤ pat.length := by
          cases hp : pat with
          | nil => exact absurd hp h.1
          | cons a as => simp
        have hd := ih (List.drop pat.length (c :: cs))
          (by simp only [List.length_drop, List.length_cons]
              simp only [List.length_cons] at hs
              omega)
        simp only [List.length_append, List.length_drop, List.length_cons] at hd ⊢
        omega
      · rw [if_neg h]
        have hd := ih cs (by simp only [List.length_cons] at hs; omega)
        simp only [List.length_cons]
        omega

/-- Replacement with a strictly longer replacement strictly lengthens any text
in which the pattern occurs. -/
theorem lt_length_replaceList (pat repl : List Char) (hp : pat ≠ [])
    (hlen : pat.length < repl.length) :
    ∀ (n : Nat) (s : List Char), s.length ≤ n → containsSub pat s = true →
      s.length < (replaceList pat repl s).length := by
  intro n
  induction n with
  | zero =>
    intro s hs hc
    have h0 : s = [] := List.length_eq_zero.mp (Nat.le_zero.mp hs)
    subst h0
    rw [containsSub, List.isEmpty_iff] at hc
    exact absurd hc hp
  | succ n ih =>
    intro s hs hc
    cases s with
    | nil =>
      rw [containsSub, List.isEmpty_iff] at hc
      exact absurd hc hp
    | cons c cs =>
      rw [replaceList_cons]
      by_cases h : List.take pat.length (c :: cs) = pat
      · rw [if_pos ⟨hp, h⟩]
        have hp1 : 1 ≤ pat.length := by
          cases hpp : pat with
          | nil => exact absurd hpp hp
          | cons a as => simp
        have hple : pat.length ≤ cs.length + 1 := by
          have hl := congrArg List.length h
          simp only [List.length_take, List.length_cons] at hl
          omega
        have hd := le_length_replaceList pat repl (Nat.le_of_lt hlen) n
          (List.drop pat.length (c :: cs))
          (by simp only [List.length_drop, List.length_cons]
              simp only [List.length_cons] at hs
              omega)
        simp only [List.length_append, List.length_drop, List.length_cons] at hd ⊢
        omega
      · have h2 : containsSub pat cs = true := by
          rw [containsSub, if_neg h] at hc
          exact hc
        rw [if_neg (fun hc' => h hc'.2)]
        have hd := ih cs (by simp only [List.length_cons] at hs; omega) h2
        simp only [List.length_cons]
        omega

/-- A text whose prefix is the pattern contains the pattern. -/
theorem containsSub_of_take (pat x : List Char)
    (h : List.take pat.length x = pat) : containsSub pat x = true := by
  cases x with
  | nil =>
    simp only [List.take_nil] at h
    rw [containsSub, List.isEmpty_iff]
    exact h.symm
  | cons c cs => rw [containsSub, if_pos h]

/-- A text with an explicit occurrence of the pattern contains the pattern. -/
theorem containsSub_append (pat l r : List Char) :
    containsSub pat (l ++ pat ++ r) = true := by
  induction l with
  | nil =>
    simp only [List.nil_append]
    refine containsSub_of_take pat (pat ++ r) ?_
    rw [List.take_append_of_le_length (Nat.le_refl _), List.take_length]
  | cons c l' ih =>
    show containsSub pat (c :: (l' ++ pat ++ r)) = true
    rw [containsSub]
    by_cases h : List.take pat.length (c :: (l' ++ pat ++ r)) = pat
    · rw [if_pos h]
    · rw [if_neg h]
      exact ih

/-- Round trip between `String` and its character list. -/
theorem asString_toList (s : String) : s.toList.asString = s := rfl

/-- The character list of the patched query is the composition of the two raw
list-level replacements. -/
theorem toList_patchQuery (q : String) :
    (patchQuery q).toList =
      replaceList "joiningdate".toList "joiningdate::timestamp".toList
        (replaceList "DATE_SUB(CURRENT_DATE".toList "CURRENT_DATE - INTERVAL".toList
          q.toList) := rfl

end Chatbot

namespace Chatbot

/-- Strings with the same character list are equal. -/
theorem string_eq_of_toList (a b : String) (h : a.toList = b.toList) : a = b := by
  cases a with
  | mk da =>
    cases b with
    | mk db => exact congrArg String.mk h

/-- Character list of a concatenation. -/
theorem toList_append (s t : String) : (s ++ t).toList = s.toList ++ t.toList :=
  String.data_append s t

/-- The replacement rewrites an occurrence of the pattern wherever it sits:
if no occurrence starts before position `l.length`, the text around the
occurrence is kept and scanning resumes after the replacement, whatever the
surrounding text is. -/
theorem replaceList_occurrence (pat repl : List Char) (hp : pat ≠ []) :
    ∀ l r : List Char, containsSub pat ((l ++ pat).dropLast) = false →
      replaceList pat repl (l ++ pat ++ r) = l ++ repl ++ replaceList pat repl r := by
  intro l
  induction l with
  | nil =>
    intro r _
    simp only [List.nil_append]
    rw [replaceList_head pat repl (pat ++ r)
      (by cases pat with
          | nil => exact absurd rfl hp
          | cons p ps => simp)
      hp
      (by rw [List.take_append_of_le_length (Nat.le_refl _), List.take_length])]
    rw [List.drop_left]
  | cons c l' ih =>
    intro r h
    have hp1 : 1 ≤ pat.length := by
      cases hpp : pat with
      | nil => exact absurd hpp hp
      | cons a as => simp
    have hne : l' ++ pat ≠ [] := by
      cases pat with
      | nil => exact absurd rfl hp
      | cons p ps => simp
    have hdl : ((c :: l') ++ pat).dropLast = c :: (l' ++ pat).dropLast := by
      show (c :: (l' ++ pat)).dropLast = _
      exact List.dropLast_cons_of_ne_nil hne
    rw [hdl] at h
    obtain ⟨hhead, htail⟩ := containsSub_cons_false pat c _ h
    have hsplit : l' ++ pat ++ r =
        (l' ++ pat).dropLast ++ ([(l' ++ pat).getLast hne] ++ r) := by
      rw [← List.append_assoc, List.dropLast_append_getLast hne]
    have htake : List.take pat.length (c :: (l' ++ pat ++ r)) =
        List.take pat.length (c :: (l' ++ pat).dropLast) := by
      rw [hsplit]
      show List.take pat.length
        ((c :: (l' ++ pat).dropLast) ++ ([(l' ++ pat).getLast hne] ++ r)) = _
      rw [List.take_append_of_le_length]
      simp only [List.length_cons, List.length_dropLast, List.length_append]
      omega
    show replaceList pat repl (c :: (l' ++ pat ++ r)) = _
    rw [replaceList_cons, if_neg (fun hc => hhead (htake ▸ hc.2)), ih r htail]
    simp

/-- Python `repr` keeps a plain character unchanged. -/
theorem pyReprChar_plain (c : Char) (h : plainChar c = true) :
    pyReprChar '\x27' c = [c] := by
  simp only [plainChar, Bool.and_eq_true, bne_iff_ne, decide_eq_true_eq] at h
  obtain ⟨⟨⟨h1, h2⟩, h3⟩, h4⟩ := h
  have h5 : c ≠ '\n' := by intro he; rw [he] at h1; exact absurd h1 (by decide)
  have h6 : c ≠ '\r' := by intro he; rw [he] at h1; exact absurd h1 (by decide)
  have h7 : c ≠ '\t' := by intro he; rw [he] at h1; exact absurd h1 (by decide)
  have hn : ¬(c.toNat < 32 ∨ (127 ≤ c.toNat ∧ c.toNat ≤ 160) ∨ c.toNat = 173) := by
    omega
  simp [pyReprChar, h3, h4, h5, h6, h7, hn]

/-- Python `repr` keeps a run of plain characters unchanged. -/
theorem flatConcat_plain :
    ∀ l : List Char, (∀ c ∈ l, plainChar c = true) →
      flatConcat (l.map (pyReprChar '\x27')) = l := by
  intro l
  induction l with
  | nil => intro _; rfl
  | cons c cs ih =>
    intro h
    simp only [List.map_cons, flatConcat]
    rw [pyReprChar_plain c (h c (by simp)), ih (fun d hd => h d (by simp [hd]))]
    rfl

/-- Python `repr` of a string of plain characters is the string wrapped in
single quotes, with the payload kept character for character. -/
theorem pyRepr_plain (s : String) (h : ∀ c ∈ s.toList, plainChar c = true) :
    (pyRepr s).toList = '\x27' :: (s.toList ++ ['\x27']) := by
  have hq : ¬('\x27' ∈ s.toList ∧ '"' ∉ s.toList) := by
    rintro ⟨hmem, -⟩
    have hpl := h _ hmem
    exact absurd hpl (by decide)
  show ((if '\x27' ∈ s.toList ∧ '"' ∉ s.toList then '"' else '\x27') ::
      (flatConcat (s.toList.map (pyReprChar
        (if '\x27' ∈ s.toList ∧ '"' ∉ s.toList then '"' else '\x27'))) ++
        [(if '\x27' ∈ s.toList ∧ '"' ∉ s.toList then '"' else '\x27')])).asString.toList = _
  rw [if_neg hq]
  show '\x27' :: (flatConcat (s.toList.map (pyReprChar '\x27')) ++ ['\x27']) = _
  rw [flatConcat_plain s.toList h]

/-- The pydantic `repr` of a message embeds the `repr` of its payload. -/
theorem messageRepr_split (m : ChatMessage) :
    ∃ w z : List Char, (messageRepr m).toList = w ++ (pyRepr m.content).toList ++ z := by
  cases m with
  | HumanMessage c =>
    exact ⟨"HumanMessage(content=".toList,
      ", additional_kwargs=\x7b\x7d, response_metadata=\x7b\x7d)".toList,
      by simp [messageRepr, ChatMessage.content, toList_append]⟩
  | AIMessage c =>
    exact ⟨"AIMessage(content=".toList,
      ", additional_kwargs=\x7b\x7d, response_metadata=\x7b\x7d)".toList,
      by simp [messageRepr, ChatMessage.content, toList_append]⟩

/-- The joined `repr` of a history embeds the `repr` of each of its turns. -/
theorem reprJoin_mem :
    ∀ (hist : List ChatMessage) (m : ChatMessage), m ∈ hist →
      ∃ u v : List Char, (reprJoin hist).toList = u ++ (messageRepr m).toList ++ v := by
  intro hist
  induction hist with
  | nil => intro m hm; exact absurd hm (by simp)
  | cons m0 rest ih =>
    intro m hm
    rcases List.mem_cons.mp hm with he | ht
    · subst he
      refine ⟨[], (if rest.isEmpty then "" else ", " ++ reprJoin rest).toList, ?_⟩
      simp [reprJoin, toList_append]
    · have hrest : ¬rest.isEmpty := by
        cases rest with
        | nil => exact absurd ht (by simp)
        | cons a b => simp
      obtain ⟨u, v, hu⟩ := ih m ht
      refine ⟨(messageRepr m0).toList ++ ", ".toList ++ u, v, ?_⟩
      have hu' : (reprJoin rest).data = u ++ ((messageRepr m).data ++ v) := by
        simpa [List.append_assoc, String.toList] using hu
      simp [reprJoin, hrest, toList_append, List.append_assoc, String.toList, hu']

end Chatbot

namespace Chatbot

/-- Claim C1: for every SQL query string and every database handle whose `run`
raises, `safe_query_execution` does not propagate the exception — it returns
the string `"An error occurred while running the query: "` followed by the
exception's text — and on success it returns the database's result text. -/
theorem safe_query_execution_wraps_errors (db : Database) (q : String) :
    (∀ e, db.run (patchQuery q) = Except.error e →
        safe_query_execution db q = "An error occurred while running the query: " ++ e) ∧
    (∀ r, db.run (patchQuery q) = Except.ok r → safe_query_execution db q = r) := by
  constructor <;> (intro x hx; simp [safe_query_execution, hx])

/-- Witness for C1 at a concrete raising handle and a concrete succeeding
handle. -/
theorem safe_query_execution_wraps_errors_witness :
    safe_query_execution failingDB "SELECT 1" =
      "An error occurred while running the query: connection refused" ∧
    safe_query_execution okDB "SELECT 1" = "[(42,)]" :=
  ⟨(safe_query_execution_wraps_errors failingDB "SELECT 1").1 "connection refused" rfl,
   (safe_query_execution_wraps_errors okDB "SELECT 1").2 "[(42,)]" rfl⟩

/-- Claim C2: before execution the Query Executor applies exactly the two
literal substitutions in order — the `DATE_SUB` rewrite, then the
`joiningdate` rewrite — and invokes the database with the rewritten text only
(its result depends on `run` only at the patched query); in particular any
input containing `"DATE_SUB(CURRENT_DATE"` is executed in rewritten form,
never as the original text. -/
theorem safe_query_execution_runs_patched_text :
    (∀ (db dbAlt : Database) (q : String),
        db.run (patchQuery q) = dbAlt.run (patchQuery q) →
        safe_query_execution db q = safe_query_execution dbAlt q) ∧
    (∀ q : String,
        patchQuery q =
          strReplace (strReplace q "DATE_SUB(CURRENT_DATE" "CURRENT_DATE - INTERVAL")
            "joiningdate" "joiningdate::timestamp") ∧
    (∀ q : String, containsSub "DATE_SUB(CURRENT_DATE".toList q.toList = true →
        patchQuery q ≠ q) := by
  refine ⟨?_, fun q => rfl, ?_⟩
  · intro db dbAlt q h
    simp [safe_query_execution, h]
  · intro q hc hq
    have h1 : q.toList.length <
        (replaceList "DATE_SUB(CURRENT_DATE".toList "CURRENT_DATE - INTERVAL".toList
          q.toList).length :=
      lt_length_replaceList _ _ (by decide) (by decide) q.toList.length q.toList
        (Nat.le_refl _) hc
    have h2 : (replaceList "DATE_SUB(CURRENT_DATE".toList "CURRENT_DATE - INTERVAL".toList
          q.toList).length ≤
        (replaceList "joiningdate".toList "joiningdate::timestamp".toList
          (replaceList "DATE_SUB(CURRENT_DATE".toList "CURRENT_DATE - INTERVAL".toList
            q.toList)).length :=
      le_length_replaceList _ _ (by decide) _ _ (Nat.le_refl _)
    have h3 := congrArg (fun s : String => s.toList.length) hq
    simp only [toList_patchQuery] at h3
    omega

/-- Witness for C2: a handle that raises exactly on the original `DATE_SUB`
text behaves like an always-succeeding handle, because only the patched text
is ever executed; and the patched text differs from the original. -/
theorem safe_query_execution_runs_patched_text_witness :
    safe_query_execution okDB "DATE_SUB(CURRENT_DATE, INTERVAL 7 DAY)" =
      safe_query_execution originalSensitiveDB "DATE_SUB(CURRENT_DATE, INTERVAL 7 DAY)" ∧
    patchQuery "DATE_SUB(CURRENT_DATE, INTERVAL 7 DAY)" ≠
      "DATE_SUB(CURRENT_DATE, INTERVAL 7 DAY)" :=
  ⟨safe_query_execution_runs_patched_text.1 okDB originalSensitiveDB
      "DATE_SUB(CURRENT_DATE, INTERVAL 7 DAY)" rfl,
   safe_query_execution_runs_patched_text.2.2 "DATE_SUB(CURRENT_DATE, INTERVAL 7 DAY)"
      (by decide)⟩

/-- Counterexample to claim C3: the pair of substitutions is not idempotent —
a query containing `joiningdate` gains a further `::timestamp` on the second
application, because the replacement text itself contains the pattern. -/
theorem patch_pair_not_idempotent :
    patchQuery (patchQuery "SELECT joiningdate FROM employees") ≠
      patchQuery "SELECT joiningdate FROM employees" := by decide

/-- Claim C3 (amended): applying the pair of substitutions twice agrees with
applying it once on inputs containing neither `"DATE_SUB(CURRENT_DATE"` nor
`"joiningdate"`; on such inputs one application already leaves the text
unchanged.  (Unrestricted idempotence fails: see
`patch_pair_not_idempotent`.) -/
theorem patch_pair_idempotent_without_patterns (q : String)
    (h1 : containsSub "DATE_SUB(CURRENT_DATE".toList q.toList = false)
    (h2 : containsSub "joiningdate".toList q.toList = false) :
    patchQuery (patchQuery q) = patchQuery q := by
  have hq : patchQuery q = q := by
    apply string_eq_of_toList
    rw [toList_patchQuery, replaceList_of_containsSub_false _ _ _ h1,
      replaceList_of_containsSub_false _ _ _ h2]
  rw [hq]
  exact hq

/-- Witness for amended C3 at a concrete pattern-free query. -/
theorem patch_pair_idempotent_without_patterns_witness :
    containsSub "DATE_SUB(CURRENT_DATE".toList "SELECT name FROM employees".toList = false ∧
    containsSub "joiningdate".toList "SELECT name FROM employees".toList = false ∧
    patchQuery (patchQuery "SELECT name FROM employees") =
      patchQuery "SELECT name FROM employees" :=
  ⟨by decide, by decide,
   patch_pair_idempotent_without_patterns "SELECT name FROM employees" (by decide) (by decide)⟩

/-- Claim C4: an absent submission, or one that is empty or whitespace-only
after `strip()`, appends no turn to the chat history and leaves the session
state unchanged, whatever the pipeline's LLM calls would do — so the
question-answering pipeline is never invoked. -/
theorem blank_input_leaves_state_unchanged (llmGen llmAns : String → Except String String)
    (state : SessionState) :
    user_query_step llmGen llmAns state none = (state, none) ∧
    ∀ q : String, pyStrip q = "" →
      user_query_step llmGen llmAns state (some q) = (state, none) := by
  refine ⟨rfl, ?_⟩
  intro q hq
  simp [user_query_step, hq]

/-- Witness for C4 at a whitespace-only submission. -/
theorem blank_input_leaves_state_unchanged_witness :
    pyStrip "   \n\t " = "" ∧
    user_query_step (okLLM "SELECT 1") (okLLM "There are 5.") initial_state
        (some "   \n\t ") = (initial_state, none) :=
  ⟨by decide,
   (blank_input_leaves_state_unchanged (okLLM "SELECT 1") (okLLM "There are 5.")
      initial_state).2 "   \n\t " (by decide)⟩

/-- Claim C5: when connection setup raises, the exception is caught at the
connect action, the failure message is surfaced, and the session's `db` entry
keeps whatever value it had before the attempt. -/
theorem connect_error_leaves_connection_unset (state : SessionState) (e : String) :
    connect_step state (Except.error e) =
      (state, "Failed to connect to the database: " ++ e) ∧
    (connect_step state (Except.error e)).1.db = state.db :=
  ⟨rfl, rfl⟩

/-- Claim C6: a failure of either LLM call is caught nowhere inside
`get_response` or `get_sql_chain` and propagates to the caller, while — by
contrast — database execution errors never make `get_response` fail: when
both LLM calls succeed it returns the second call's text whatever
`db.run` did. -/
theorem llm_failures_propagate_uncaught (llmGen llmAns : String → Except String String)
    (db : Database) (question : String) (hist : List ChatMessage) :
    (∀ e, get_sql_chain db llmGen question hist = Except.error e →
        get_response llmGen llmAns question db hist = Except.error e) ∧
    (∀ sql e, get_sql_chain db llmGen question hist = Except.ok sql →
        llmAns (answer_prompt db.get_table_info (renderHistory hist) sql question
          (safe_query_execution db sql)) = Except.error e →
        get_response llmGen llmAns question db hist = Except.error e) ∧
    (∀ sql ans, get_sql_chain db llmGen question hist = Except.ok sql →
        llmAns (answer_prompt db.get_table_info (renderHistory hist) sql question
          (safe_query_execution db sql)) = Except.ok ans →
        get_response llmGen llmAns question db hist = Except.ok ans) := by
  refine ⟨?_, ?_, ?_⟩
  · intro e he
    simp [get_response, he]
  · intro sql e h1 h2
    simp [get_response, h1, h2]
  · intro sql ans h1 h2
    simp [get_response, h1, h2]

/-- Witness for C6: a failing generation call, a failing composition call, and
a raising database under two succeeding LLM calls. -/
theorem llm_failures_propagate_uncaught_witness :
    get_response (failLLM "rate limited") (okLLM "answer") "q" failingDB [] =
      Except.error "rate limited" ∧
    get_response (okLLM "SELECT 1") (failLLM "socket closed") "q" failingDB [] =
      Except.error "socket closed" ∧
    get_response (okLLM "SELECT 1") (okLLM "There are 42 employees.") "q" failingDB [] =
      Except.ok "There are 42 employees." :=
  ⟨(llm_failures_propagate_uncaught (failLLM "rate limited") (okLLM "answer")
      failingDB "q" []).1 "rate limited" rfl,
   (llm_failures_propagate_uncaught (okLLM "SELECT 1") (failLLM "socket closed")
      failingDB "q" []).2.1 "SELECT 1" "socket closed" rfl rfl,
   (llm_failures_propagate_uncaught (okLLM "SELECT 1") (okLLM "There are 42 employees.")
      failingDB "q" []).2.2 "SELECT 1" "There are 42 employees." rfl rfl⟩

/-- Claim C7: the chat history is append-only — the connect action never
touches it, and every submission outcome extends it with a (possibly empty)
suffix of new turns, leaving every existing turn in place and unchanged. -/
theorem chat_history_append_only (llmGen llmAns : String → Except String String)
    (state : SessionState) (user_query : Option String) :
    (∀ attempt : Except String Database,
        (connect_step state attempt).1.chat_history = state.chat_history) ∧
    ∃ tail : List ChatMessage,
      (user_query_step llmGen llmAns state user_query).1.chat_history =
        state.chat_history ++ tail := by
  constructor
  · intro attempt
    cases attempt <;> rfl
  · cases user_query with
    | none => exact ⟨[], by simp [user_query_step]⟩
    | some q =>
      by_cases hq : pyStrip q = ""
      · exact ⟨[], by simp [user_query_step, hq]⟩
      · cases hdb : state.db with
        | none =>
          exact ⟨[ChatMessage.HumanMessage q], by simp [user_query_step, hq, hdb]⟩
        | some db =>
          cases hr : get_response llmGen llmAns q db
              (state.chat_history ++ [ChatMessage.HumanMessage q]) with
          | error e =>
            exact ⟨[ChatMessage.HumanMessage q], by simp [user_query_step, hq, hdb, hr]⟩
          | ok response =>
            exact ⟨[ChatMessage.HumanMessage q, ChatMessage.AIMessage response],
              by simp [user_query_step, hq, hdb, hr]⟩

set_option maxRecDepth 100000 in
/-- Counterexample to claim C8: a turn whose payload contains a newline is
rendered into the composed prompt through Python `repr`, so the payload does
not appear verbatim (character for character) anywhere in the prompt text. -/
theorem escaped_turn_not_verbatim :
    ¬ Occurs "a\nb".toList
      (sql_prompt "s" (renderHistory [ChatMessage.AIMessage "a\nb"]) "q").toList := by
  rintro ⟨l, r, hl⟩
  have h1 : containsSub "a\nb".toList
      (sql_prompt "s" (renderHistory [ChatMessage.AIMessage "a\nb"]) "q").toList = true := by
    rw [hl]
    exact containsSub_append _ _ _
  have h2 : containsSub "a\nb".toList
      (sql_prompt "s" (renderHistory [ChatMessage.AIMessage "a\nb"]) "q").toList = false := by
    decide
  rw [h1] at h2
  exact absurd h2 (by simp)

set_option maxRecDepth 4000 in
/-- Claim C8 (amended): a turn in the history passed to the Prompt Composer
appears verbatim, character for character, in the composed prompt text
whenever its payload consists of printable ASCII characters other than the
backslash and the single quote; payloads with characters that Python `repr`
escapes appear in escaped form instead. -/
theorem plain_turn_text_verbatim (schema question : String) (hist : List ChatMessage)
    (m : ChatMessage) (hm : m ∈ hist)
    (hplain : ∀ c ∈ m.content.toList, plainChar c = true) :
    Occurs m.content.toList
      (sql_prompt schema (renderHistory hist) question).toList := by
  obtain ⟨u, v, hu⟩ := reprJoin_mem hist m hm
  obtain ⟨w, z, hw⟩ := messageRepr_split m
  have hc := pyRepr_plain m.content hplain
  have hu' : (reprJoin hist).data = u ++ ((messageRepr m).data ++ v) := by
    simpa [List.append_assoc, String.toList] using hu
  have hw' : (messageRepr m).data = w ++ ((pyRepr m.content).data ++ z) := by
    simpa [List.append_assoc, String.toList] using hw
  have hc' : (pyRepr m.content).data = '\x27' :: (m.content.data ++ ['\x27']) := by
    simpa [String.toList] using hc
  refine ⟨"\n    You are a god-level SQL expert with extensive knowledge of PostgreSQL. You are a data analyst at a company. \n    You are interacting with a user who is asking you questions about the company's database. Based on the table schema below, \n    write a PostgreSQL SQL query that would answer the user's question. \n\n    <SCHEMA>".data ++
      schema.data ++ "</SCHEMA>\n\n    Conversation History: ".data ++ "[".data ++
      u ++ w ++ ['\x27'],
    ['\x27'] ++ z ++ v ++ "]".data ++
      "\n\n    Write only the PostgreSQL SQL query and nothing else. Do not wrap the SQL query in any other text, not even backticks.\n\n    Your turn:\n    Question: ".data ++
      question.data ++ "\n    SQL Query:\n    ".data, ?_⟩
  simp only [sql_prompt, renderHistory, String.toList, String.data_append]
  rw [hu', hw', hc']
  simp [List.append_assoc, String.toList]

set_option maxRecDepth 100000 in
/-- Witness for amended C8 at a concrete plain-text human turn. -/
theorem plain_turn_text_verbatim_witness :
    Occurs (ChatMessage.HumanMessage "How many employees joined after 2023?").content.toList
      (sql_prompt "employees(joiningdate)"
        (renderHistory [ChatMessage.HumanMessage "How many employees joined after 2023?"])
        "How many employees joined after 2023?").toList :=
  plain_turn_text_verbatim "employees(joiningdate)"
    "How many employees joined after 2023?"
    [ChatMessage.HumanMessage "How many employees joined after 2023?"]
    (ChatMessage.HumanMessage "How many employees joined after 2023?")
    (by simp) (by decide)

/-- Claim C9: a non-empty submission while no connection is set appends the
human turn and nothing else — the pipeline never runs, no AI turn is
appended, and the run ends normally — so the history can end in a human
question with no AI answer. -/
theorem missing_connection_keeps_human_turn (llmGen llmAns : String → Except String String)
    (state : SessionState) (q : String) (hq : pyStrip q ≠ "") (hdb : state.db = none) :
    user_query_step llmGen llmAns state (some q) =
      ({ state with chat_history := state.chat_history ++ [ChatMessage.HumanMessage q] },
        none) := by
  simp [user_query_step, hq, hdb]

/-- Witness for C9 at the initial (connection-less) state. -/
theorem missing_connection_keeps_human_turn_witness :
    pyStrip "How many employees are there?" ≠ "" ∧
    user_query_step (failLLM "provider down") (failLLM "provider down") initial_state
        (some "How many employees are there?") =
      ({ initial_state with chat_history := initial_state.chat_history ++
          [ChatMessage.HumanMessage "How many employees are there?"] }, none) :=
  ⟨by decide,
   missing_connection_keeps_human_turn (failLLM "provider down") (failLLM "provider down")
     initial_state "How many employees are there?" (by decide) rfl⟩

/-- Claim C10: the column-cast substitution is purely textual — an occurrence
of `"joiningdate"` is rewritten to `"joiningdate::timestamp"` whatever text
surrounds it (string literals, comments, or longer identifiers included), the
surrounding text is kept, and scanning continues in the rest of the query;
the hypothesis only pins the designated occurrence as the leftmost one. -/
theorem joiningdate_rewrite_is_textual (l r : String)
    (h : containsSub "joiningdate".toList ((l ++ "joiningdate").toList.dropLast) = false) :
    strReplace (l ++ "joiningdate" ++ r) "joiningdate" "joiningdate::timestamp" =
      l ++ "joiningdate::timestamp" ++
        strReplace r "joiningdate" "joiningdate::timestamp" := by
  apply string_eq_of_toList
  have hlist := replaceList_occurrence "joiningdate".toList "joiningdate::timestamp".toList
    (by decide) l.toList r.toList
    (by rw [← toList_append]; exact h)
  show replaceList "joiningdate".toList "joiningdate::timestamp".toList
      ((l ++ "joiningdate" ++ r).toList) = _
  rw [toList_append, toList_append, hlist, toList_append, toList_append]
  rfl

/-- Witness for C10: an occurrence inside the longer identifier
`myjoiningdatecol` is rewritten all the same. -/
theorem joiningdate_rewrite_is_textual_witness :
    containsSub "joiningdate".toList
      (("SELECT my" ++ "joiningdate").toList.dropLast) = false ∧
    strReplace ("SELECT my" ++ "joiningdate" ++ "col FROM t")
        "joiningdate" "joiningdate::timestamp" =
      "SELECT my" ++ "joiningdate::timestamp" ++
        strReplace "col FROM t" "joiningdate" "joiningdate::timestamp" :=
  ⟨by decide, joiningdate_rewrite_is_textual "SELECT my" "col FROM t" (by decide)⟩

end Chatbot
